import Mathlib

/-!
Verification development for the event-driven single-slot frame channel and
the streaming forwarder of the linux-driver-learning repository.

The channel is the camera wait-queue driver (v2_with_waitqueue.c, camera
variant): a single frame slot `frame_buffer`, a `data_ready` flag, a
`frame_count` sequence counter, a timer-driven producer
`simulate_camera_interrupt`, the non-blocking claim `my_read`, the readiness
poll `my_poll`, and the module teardown `interrupt_v2_exit`.  The forwarder
is frame_streamer.c: a loop that polls the device, reads one frame, and sends
it over TCP with a partial-write retry loop.

Conventions of the embedding:
- machine integers are `Nat` (all quantities involved are non-negative and
  no overflow is reachable at the sizes used);
- the frame buffer and the caller's user buffer are byte-indexed total
  functions `Nat → Nat`; only indices below `FRAME_SIZE` are meaningful;
- `copy_to_user` may fail; this is modelled by an explicit `copy_ok` flag
  passed to `my_read`;
- the 16-bit pixels written by `generate_test_pattern` are laid out in the
  byte buffer little-endian (low byte at the even offset), matching the
  in-memory layout the driver's `char *` / `uint16_t *` aliasing produces on
  the platform the repository targets.
-/

/- Constants from v2_with_waitqueue.c (camera variant) lines 45-48 and
frame_streamer.c lines 14-16. -/

def FRAME_WIDTH : Nat := 640

def FRAME_HEIGHT : Nat := 480

def BYTES_PER_PIXEL : Nat := 2

def FRAME_SIZE : Nat := FRAME_WIDTH * FRAME_HEIGHT * BYTES_PER_PIXEL

def MAX_FRAMES : Nat := 5

def POLLIN : Nat := 1

def POLLRDNORM : Nat := 64

/-- Error codes the driver's file operations can return, plus `ECANCELED`,
which exists in the kernel errno namespace but is never produced by this
driver; it is included so that "the operation does not return a cancellation
signal" is expressible. -/
inductive Errno where
  | EAGAIN
  | EFAULT
  | ECANCELED
deriving DecidableEq

/-- Pixel value written by `generate_test_pattern` at linear pixel index
`p = i * FRAME_WIDTH + j`: the source computes
`((i + j + frame_count * 10) * 16) % 4096`. -/
def test_pattern_pixel (fc : Nat) (p : Nat) : Nat :=
  ((p / FRAME_WIDTH + p % FRAME_WIDTH + fc * 10) * 16) % 4096

/-- Byte at offset `idx` of the frame buffer after `generate_test_pattern`
ran with frame counter `fc` (little-endian 16-bit pixels). -/
def pattern_byte (fc : Nat) (idx : Nat) : Nat :=
  if idx % 2 = 0 then test_pattern_pixel fc (idx / 2) % 256
  else test_pattern_pixel fc (idx / 2) / 256

/-- The channel state of v2_with_waitqueue.c: the module-global
`frame_count`, `data_ready` and `frame_buffer` (byte-indexed). -/
structure ChanState where
  frame_count : Nat
  data_ready : Bool
  frame_buffer : Nat → Nat

/-- Module state right after init: `frame_count = 0`, `data_ready = false`,
frame buffer freshly allocated (contents unspecified, modelled as zeros). -/
def chanInit : ChanState :=
  { frame_count := 0, data_ready := false, frame_buffer := fun _ => 0 }

/-- `generate_test_pattern` overwrites the whole frame buffer with the
gradient pattern for the current frame counter. -/
def generate_test_pattern (fc : Nat) : Nat → Nat :=
  pattern_byte fc

/-- `simulate_camera_interrupt` (the publish operation, lines 126-155):
increments `frame_count`, regenerates the test pattern, sets `data_ready`,
and wakes waiters (the wake itself has no effect on the sequential channel
state; it is modelled explicitly in the interleaved models below). -/
def simulate_camera_interrupt (s : ChanState) : ChanState :=
  let fc := s.frame_count + 1
  { frame_count := fc
    frame_buffer := generate_test_pattern fc
    data_ready := true }

/-- Result of one `my_read` call: the return value (byte count or negative
errno, modelled as `Except`), the channel state after the call, and the
caller's user buffer after the call. -/
structure ReadResult where
  ret : Except Errno Nat
  chan : ChanState
  ubuf : Nat → Nat

/-- `my_read` (lines 204-234): returns `-EAGAIN` if `data_ready` is false;
otherwise copies `min count FRAME_SIZE` bytes of the frame buffer to the
user buffer, returning `-EFAULT` (with no state change) if the copy fails,
and clearing `data_ready` on success. -/
def my_read (s : ChanState) (ubuf : Nat → Nat) (count : Nat)
    (copy_ok : Bool) : ReadResult :=
  if s.data_ready = false then
    { ret := Except.error Errno.EAGAIN, chan := s, ubuf := ubuf }
  else
    let bytes_to_copy := min count FRAME_SIZE
    if copy_ok = false then
      { ret := Except.error Errno.EFAULT, chan := s, ubuf := ubuf }
    else
      { ret := Except.ok bytes_to_copy
        chan := { s with data_ready := false }
        ubuf := fun idx => if idx < bytes_to_copy then s.frame_buffer idx
                           else ubuf idx }

/-- The event mask computed by `my_poll` (lines 245-269): `POLLIN |
POLLRDNORM` when `data_ready` is set, `0` otherwise.  (The wait-queue
registration side effect of `poll_wait` is modelled in the interleaved
no-missed-wakeup model below.) -/
def my_poll_mask (s : ChanState) : Nat :=
  if s.data_ready then POLLIN + POLLRDNORM else 0

/-- A zeroed user buffer. -/
def ubuf0 : Nat → Nat := fun _ => 0

/-- Claim C3: latest-wins overwrite.  Publishing three frames with no
intervening claim advances the sequence counter by three (each publish
increments it and leaves the channel READY, even when it overwrites an
unclaimed frame), and a subsequent claim returns exactly the third frame's
bytes; a further claim finds the channel empty, so the first two frames were
discarded and never queued. -/
theorem c3_latest_wins (s : ChanState) (u : Nat → Nat) :
    (simulate_camera_interrupt s).frame_count = s.frame_count + 1 ∧
    (simulate_camera_interrupt s).data_ready = true ∧
    (simulate_camera_interrupt (simulate_camera_interrupt
        (simulate_camera_interrupt s))).frame_count = s.frame_count + 3 ∧
    (my_read (simulate_camera_interrupt (simulate_camera_interrupt
        (simulate_camera_interrupt s))) u FRAME_SIZE true).ret =
      Except.ok FRAME_SIZE ∧
    (∀ idx, idx < FRAME_SIZE →
      (my_read (simulate_camera_interrupt (simulate_camera_interrupt
          (simulate_camera_interrupt s))) u FRAME_SIZE true).ubuf idx =
        pattern_byte (s.frame_count + 3) idx) ∧
    (my_read (my_read (simulate_camera_interrupt (simulate_camera_interrupt
        (simulate_camera_interrupt s))) u FRAME_SIZE true).chan u
        FRAME_SIZE true).ret = Except.error Errno.EAGAIN := by
  refine ⟨rfl, rfl, ?_, ?_, ?_, ?_⟩
  · simp [simulate_camera_interrupt]
  · simp [my_read, simulate_camera_interrupt]
  · intro idx hidx
    simp only [my_read, simulate_camera_interrupt, generate_test_pattern]
    simp [hidx, Nat.add_assoc]
  · simp [my_read, simulate_camera_interrupt]

/-- Claim C3 witness: at the freshly initialized channel, after three
publishes a claim succeeds and delivers byte 0 of frame 3's pattern, namely
224. -/
theorem c3_latest_wins_witness :
    (my_read (simulate_camera_interrupt (simulate_camera_interrupt
        (simulate_camera_interrupt chanInit))) ubuf0 FRAME_SIZE true).ubuf 0 =
      pattern_byte 3 0 ∧ pattern_byte 3 0 = 224 :=
  ⟨(c3_latest_wins chanInit ubuf0).2.2.2.2.1 0 (by decide), by decide⟩

/-- Claim C5: non-blocking claim on an empty channel.  Whenever
`data_ready` is false, `my_read` returns `-EAGAIN` — a would-block
condition distinguishable from a frame and from the genuine error
`-EFAULT` — without blocking, and leaves the channel state and the user
buffer unchanged. -/
theorem c5_read_empty_eagain (s : ChanState) (u : Nat → Nat) (count : Nat)
    (copy_ok : Bool) (h : s.data_ready = false) :
    my_read s u count copy_ok =
      { ret := Except.error Errno.EAGAIN, chan := s, ubuf := u } ∧
    Errno.EAGAIN ≠ Errno.EFAULT := by
  refine ⟨?_, by decide⟩
  simp [my_read, h]

/-- Claim C5 witness: on the freshly initialized channel a read of 4 bytes
returns `-EAGAIN` and changes nothing. -/
theorem c5_read_empty_eagain_witness :
    my_read chanInit ubuf0 4 true =
      { ret := Except.error Errno.EAGAIN, chan := chanInit, ubuf := ubuf0 } ∧
    Errno.EAGAIN ≠ Errno.EFAULT :=
  ⟨(c5_read_empty_eagain chanInit ubuf0 4 true rfl).1,
   (c5_read_empty_eagain chanInit ubuf0 4 true rfl).2⟩

/-- Claim C9: claim is atomic on copy-out failure.  If the channel is ready
and `copy_to_user` fails, `my_read` returns `-EFAULT` and leaves the channel
unchanged — `data_ready` stays true and the slot still holds the same
frame — so a later claim still obtains that very frame. -/
theorem c9_efault_preserves_frame (s : ChanState) (u : Nat → Nat)
    (count : Nat) (h : s.data_ready = true) :
    my_read s u count false =
      { ret := Except.error Errno.EFAULT, chan := s, ubuf := u } ∧
    (my_read (my_read s u count false).chan u FRAME_SIZE true).ret =
      Except.ok FRAME_SIZE ∧
    (∀ idx, idx < FRAME_SIZE →
      (my_read (my_read s u count false).chan u FRAME_SIZE true).ubuf idx =
        s.frame_buffer idx) := by
  refine ⟨?_, ?_, ?_⟩
  · simp [my_read, h]
  · simp [my_read, h]
  · intro idx hidx
    simp [my_read, h, hidx]

/-- Claim C9 witness: after one publish on the fresh channel, a failing
copy returns `-EFAULT`, and the immediately following read still obtains the
full frame, whose byte 0 equals frame 1's pattern byte 160. -/
theorem c9_efault_preserves_frame_witness :
    (my_read (simulate_camera_interrupt chanInit) ubuf0 8 false).ret =
      Except.error Errno.EFAULT ∧
    (my_read (my_read (simulate_camera_interrupt chanInit) ubuf0 8
        false).chan ubuf0 FRAME_SIZE true).ubuf 0 = 160 := by
  have h := c9_efault_preserves_frame (simulate_camera_interrupt chanInit)
    ubuf0 8 rfl
  refine ⟨by rw [h.1], ?_⟩
  have h0 := h.2.2 0 (by decide)
  rw [h0]
  decide

/-- Claim C10: a short claim discards the rest of the frame.  On a ready
channel, a read with `count < FRAME_SIZE` copies exactly `count` bytes of
the payload (the prefix), returns `count`, leaves the rest of the user
buffer untouched, and still clears `data_ready`, so every later claim
returns `-EAGAIN` until a new publish. -/
theorem c10_short_read_discards (s : ChanState) (u : Nat → Nat)
    (count : Nat) (hready : s.data_ready = true)
    (hcount : count < FRAME_SIZE) :
    (my_read s u count true).ret = Except.ok count ∧
    (my_read s u count true).chan.data_ready = false ∧
    (∀ idx, idx < count →
      (my_read s u count true).ubuf idx = s.frame_buffer idx) ∧
    (∀ idx, count ≤ idx → (my_read s u count true).ubuf idx = u idx) ∧
    (∀ c2 ok2,
      (my_read (my_read s u count true).chan u c2 ok2).ret =
        Except.error Errno.EAGAIN) := by
  have hmin : min count FRAME_SIZE = count := Nat.min_eq_left hcount.le
  refine ⟨?_, ?_, ?_, ?_, ?_⟩
  · simp [my_read, hready, hmin]
  · simp [my_read, hready]
  · intro idx hidx
    simp [my_read, hready, hmin, hidx]
  · intro idx hidx
    simp [my_read, hready, hmin, Nat.not_lt.mpr hidx]
  · intro c2 ok2
    simp [my_read, hready]

/-- Claim C10 witness: after one publish, a 2-byte read returns 2 bytes
(the first two pattern bytes of frame 1), clears readiness, and the next
read returns `-EAGAIN`. -/
theorem c10_short_read_discards_witness :
    (my_read (simulate_camera_interrupt chanInit) ubuf0 2 true).ret =
      Except.ok 2 ∧
    (my_read (my_read (simulate_camera_interrupt chanInit) ubuf0 2
        true).chan ubuf0 FRAME_SIZE true).ret =
      Except.error Errno.EAGAIN := by
  have h := c10_short_read_discards (simulate_camera_interrupt chanInit)
    ubuf0 2 rfl (by decide)
  exact ⟨h.1, h.2.2.2.2 FRAME_SIZE true⟩

/- Interleaved model of concurrent `my_read` claimants.

The driver takes no lock: `data_ready` is a plain bool and `my_read`
consists of three separately scheduled statements —
(1) `if (!data_ready) return -EAGAIN;`
(2) `copy_to_user(buf, frame_buffer, bytes_to_copy);`
(3) `data_ready = false; return bytes_to_copy;`
Two concurrent readers may therefore interleave at statement granularity.
A claimant is a program counter through these statements plus its observed
outcome; `got` records the sequence number of the frame its copy delivered
(the buffer is not concurrently rewritten in this scenario, so the copied
payload is identified by that sequence number). -/

structure Claimant where
  pc : Nat
  got : Option Nat
  eagain : Bool
deriving DecidableEq

/-- Shared state for N = 2 claimants racing on the published slot. -/
structure RaceSys where
  data_ready : Bool
  frame_count : Nat
  a : Claimant
  b : Claimant
deriving DecidableEq

/-- One statement of `my_read` executed by one claimant: returns the updated
claimant and the updated `data_ready` flag. -/
def claim_stmt (ready : Bool) (fc : Nat) (c : Claimant) : Claimant × Bool :=
  if c.pc = 0 then
    if ready then ({ c with pc := 1 }, ready)
    else ({ c with pc := 3, eagain := true }, ready)
  else if c.pc = 1 then ({ c with got := some fc, pc := 2 }, ready)
  else if c.pc = 2 then ({ c with pc := 3 }, false)
  else (c, ready)

/-- Scheduler step: `true` runs one statement of claimant A, `false` one of
claimant B. -/
def race_step (s : RaceSys) (who : Bool) : RaceSys :=
  if who then
    let r := claim_stmt s.data_ready s.frame_count s.a
    { s with a := r.1, data_ready := r.2 }
  else
    let r := claim_stmt s.data_ready s.frame_count s.b
    { s with b := r.1, data_ready := r.2 }

def run_race (sched : List Bool) (s : RaceSys) : RaceSys :=
  sched.foldl race_step s

/-- State after a single publish with two claimants about to call
`my_read`. -/
def raceInit : RaceSys :=
  { data_ready := true
    frame_count := 1
    a := { pc := 0, got := none, eagain := false }
    b := { pc := 0, got := none, eagain := false } }

/-- Claim C2 counterexample: the driver takes no lock, so two claimants that
interleave at statement granularity — both execute the `data_ready` check
before either clears the flag — BOTH receive published frame 1 and neither
observes a would-block condition.  This refutes "exactly one claimant
receives the published frame, and every other claimant observes Empty" at
the concrete interleaving A-check, B-check, A-copy, A-clear, B-copy,
B-clear. -/
theorem c2_exclusivity_counterexample :
    (run_race [true, false, true, true, false, false] raceInit).a.got =
      some 1 ∧
    (run_race [true, false, true, true, false, false] raceInit).b.got =
      some 1 ∧
    (run_race [true, false, true, true, false, false] raceInit).a.eagain =
      false ∧
    (run_race [true, false, true, true, false, false] raceInit).b.eagain =
      false := by
  decide

/-- Sequential claimants: `n` whole `my_read(FRAME_SIZE)` calls executed one
after another (no overlap), collecting the return values. -/
def claim_seq : Nat → ChanState → List (Except Errno Nat) × ChanState
  | 0, s => ([], s)
  | n + 1, s =>
    let r := my_read s ubuf0 FRAME_SIZE true
    let rest := claim_seq n r.chan
    (r.ret :: rest.1, rest.2)

lemma claim_seq_empty (n : Nat) (s : ChanState)
    (h : s.data_ready = false) :
    (claim_seq n s).1 = List.replicate n (Except.error Errno.EAGAIN) := by
  induction n generalizing s with
  | zero => simp [claim_seq]
  | succ n ih =>
    simp only [claim_seq, List.replicate, List.cons.injEq]
    refine ⟨by simp [my_read, h], ih _ (by simp [my_read, h])⟩

/-- Claim C2, amended: claim exclusivity holds for claim operations that do
not overlap (the driver has no lock, so overlapping claimants can duplicate
the frame — see the counterexample): when `n ≥ 1` whole `my_read` calls run
one after another against a single publish, exactly the first receives the
frame and every later one observes the would-block condition `-EAGAIN`. -/
theorem c2_exclusivity_sequential (n : Nat) (s : ChanState)
    (hn : 1 ≤ n) (h : s.data_ready = true) :
    (claim_seq n s).1 =
      Except.ok FRAME_SIZE ::
        List.replicate (n - 1) (Except.error Errno.EAGAIN) := by
  obtain ⟨m, rfl⟩ := Nat.exists_eq_add_of_le hn
  rw [Nat.add_comm 1 m]
  simp only [claim_seq, Nat.add_sub_cancel, List.cons.injEq]
  refine ⟨by simp [my_read, h], ?_⟩
  exact claim_seq_empty m _ (by simp [my_read, h])

/-- Claim C2 witness (amended form): three sequential claimants after one
publish — the first gets the frame, the other two get `-EAGAIN`. -/
theorem c2_exclusivity_sequential_witness :
    (claim_seq 3 (simulate_camera_interrupt chanInit)).1 =
      [Except.ok FRAME_SIZE, Except.error Errno.EAGAIN,
       Except.error Errno.EAGAIN] :=
  c2_exclusivity_sequential 3 (simulate_camera_interrupt chanInit)
    (by decide) rfl

/- The Forwarder's partial-write retry loop (frame_streamer.c lines
134-143):

    ssize_t total_sent = 0;
    while (total_sent < bytes_read) \x7b
        ssize_t sent = send(client_fd, buffer + total_sent,
                            bytes_read - total_sent, 0);
        if (sent < 0) goto cleanup;
        total_sent += sent;
    \x7d

`send` is the external TCP primitive: on success it transmits between 1 and
the requested number of bytes.  Its behaviour is an oracle mapping the
current offset to the number of bytes it accepts (clamped to the request,
as `send` never transmits more than asked).  The loop's observable output is
the list of `(offset, sent)` chunks handed to the peer, in order; TCP
delivers them back-to-back, so the peer's byte `i` is determined by walking
the chunk list. -/

def send_loop (oracle : Nat → Nat) : Nat → Nat → Nat → List (Nat × Nat)
  | 0, _, _ => []
  | fuel + 1, total_sent, len =>
    if total_sent < len then
      let sent := min (oracle total_sent) (len - total_sent)
      (total_sent, sent) :: send_loop oracle fuel (total_sent + sent) len
    else []

/-- Total number of bytes the peer receives from a chunk list. -/
def peer_count (chunks : List (Nat × Nat)) : Nat :=
  (chunks.map (fun c => c.2)).sum

/-- Byte `i` of the in-order concatenation of the transmitted chunks, each
chunk `(off, sent)` carrying `buf [off .. off + sent)`. -/
def peer_byte (chunks : List (Nat × Nat)) (buf : Nat → Nat) (i : Nat) :
    Nat :=
  match chunks with
  | [] => 0
  | (off, sent) :: rest =>
    if i < sent then buf (off + i) else peer_byte rest buf (i - sent)

lemma send_loop_spec (oracle : Nat → Nat) (h1 : ∀ t, 1 ≤ oracle t) :
    ∀ fuel total len buf, total ≤ len → len - total ≤ fuel →
      peer_count (send_loop oracle fuel total len) = len - total ∧
      ∀ i, i < len - total →
        peer_byte (send_loop oracle fuel total len) buf i =
          buf (total + i) := by
  intro fuel
  induction fuel with
  | zero =>
    intro total len buf hle hfuel
    have : len - total = 0 := Nat.le_zero.mp hfuel
    refine ⟨by simp [send_loop, peer_count, this], ?_⟩
    intro i hi
    omega
  | succ fuel ih =>
    intro total len buf hle hfuel
    by_cases hlt : total < len
    · have hsent1 : 1 ≤ min (oracle total) (len - total) :=
        le_min (h1 total) (by omega)
      have hsentle : min (oracle total) (len - total) ≤ len - total :=
        min_le_right _ _
      have hrec := ih (total + min (oracle total) (len - total)) len buf
        (by omega) (by omega)
      constructor
      · simp only [send_loop, if_pos hlt, peer_count, List.map_cons,
          List.sum_cons]
        have := hrec.1
        simp only [peer_count] at this
        rw [this]
        omega
      · intro i hi
        simp only [send_loop, if_pos hlt, peer_byte]
        by_cases hcase : i < min (oracle total) (len - total)
        · rw [if_pos hcase]
        · rw [if_neg hcase]
          rw [hrec.2 (i - min (oracle total) (len - total)) (by omega)]
          congr 1
          omega
    · have hz : len - total = 0 := by omega
      refine ⟨by simp [send_loop, hlt, peer_count, hz], ?_⟩
      intro i hi
      omega

/-- Claim C6: write completeness under partial writes.  `FRAME_SIZE` is
614400, and for every frame length, every frame content, and every
behaviour of `send` that transmits at least 1 byte per call (and never more
than requested), the retry loop's cumulative-offset iteration hands the
peer exactly `len` bytes whose in-order concatenation is exactly the frame:
byte `i` received equals byte `i` of the frame — nothing dropped,
duplicated, or reordered, and a short write is never treated as completing
the frame (the loop continues past it). -/
theorem c6_write_completeness (oracle : Nat → Nat) (len : Nat)
    (buf : Nat → Nat) (h1 : ∀ t, 1 ≤ oracle t) :
    FRAME_SIZE = 614400 ∧
    peer_count (send_loop oracle len 0 len) = len ∧
    ∀ i, i < len → peer_byte (send_loop oracle len 0 len) buf i = buf i := by
  have h := send_loop_spec oracle h1 len 0 len buf (Nat.zero_le len)
    (by omega)
  refine ⟨by decide, by simpa using h.1, ?_⟩
  intro i hi
  have := h.2 i (by omega)
  simpa using this

/-- Claim C6 witness: a transport that accepts exactly one byte per call
transmits a 3-byte frame completely and in order. -/
theorem c6_write_completeness_witness :
    peer_count (send_loop (fun _ => 1) 3 0 3) = 3 ∧
    peer_byte (send_loop (fun _ => 1) 3 0 3) (fun i => i + 10) 2 = 12 :=
  ⟨(c6_write_completeness (fun _ => 1) 3 (fun i => i + 10)
      (fun _ => le_refl 1)).2.1,
   (c6_write_completeness (fun _ => 1) 3 (fun i => i + 10)
      (fun _ => le_refl 1)).2.2 2 (by decide)⟩

/- End-to-end model of frame_streamer.c's main loop (lines 105-148) run
against the driver.  One iteration of the while loop:
- the timer fires, `simulate_camera_interrupt` publishes a frame and wakes
  the forwarder's blocking poll, whose revents then contain POLLIN;
- the forwarder reads `FRAME_SIZE` bytes from the device into its buffer;
- it sends the read bytes on the connection through the retry loop.
The scenario of the claim: the producer keeps publishing and the connection
never fails, i.e. `send` accepts each request in full. -/

def streamer_oracle (len : Nat) : Nat → Nat :=
  fun total_sent => len - total_sent

/-- One iteration of the streaming loop.  Produces the record of the frame
handed to the peer — the sequence number of the publish it came from, the
number of bytes the peer received, and the peer's received byte
content — together with the channel state after the iteration. -/
def forward_frame (s : ChanState) : (Nat × Nat × (Nat → Nat)) × ChanState :=
  let s1 := simulate_camera_interrupt s
  if Nat.land (my_poll_mask s1) POLLIN ≠ 0 then
    let r := my_read s1 ubuf0 FRAME_SIZE true
    match r.ret with
    | Except.ok bytes_read =>
      let chunks := send_loop (streamer_oracle bytes_read) bytes_read 0
        bytes_read
      ((s1.frame_count, peer_count chunks, peer_byte chunks r.ubuf), r.chan)
    | Except.error _ => ((s1.frame_count, 0, ubuf0), r.chan)
  else ((s1.frame_count, 0, ubuf0), s1)

/-- The `while (frame_count < MAX_FRAMES)` loop, by remaining iterations. -/
def streamer_loop : Nat → ChanState → List (Nat × Nat × (Nat → Nat)) ×
    ChanState
  | 0, s => ([], s)
  | n + 1, s =>
    let fr := forward_frame s
    let rest := streamer_loop n fr.2
    (fr.1 :: rest.1, rest.2)

/-- The whole run of frame_streamer.c in the never-failing scenario: the
frames handed to the peer and the process exit status (`return 0` after the
loop and cleanup). -/
def streamer_main : List (Nat × Nat × (Nat → Nat)) × Nat :=
  ((streamer_loop MAX_FRAMES chanInit).1, 0)

/-- Claim C7: configured frame limit and clean termination.  With the
producer publishing every period and the connection never failing, the
forwarder performs exactly `MAX_FRAMES = 5` iterations and exits with
status 0; the peer receives exactly 5 frames, their sequence numbers are
1,2,3,4,5 (strictly increasing), every one is exactly `FRAME_SIZE` bytes
long, and they are pairwise distinct (their first payload bytes
160,64,224,128,32 already differ pairwise). -/
theorem c7_frame_limit_clean_exit :
    MAX_FRAMES = 5 ∧
    streamer_main.2 = 0 ∧
    streamer_main.1.length = 5 ∧
    streamer_main.1.map (fun f => f.1) = [1, 2, 3, 4, 5] ∧
    List.Chain' (fun x y => x < y)
      (streamer_main.1.map (fun f => f.1)) ∧
    streamer_main.1.map (fun f => f.2.1) = List.replicate 5 FRAME_SIZE ∧
    streamer_main.1.map (fun f => f.2.2 0) = [160, 64, 224, 128, 32] ∧
    List.Pairwise (fun x y => x ≠ y)
      (streamer_main.1.map (fun f => f.2.2 0)) := by
  have hmap : streamer_main.1.map (fun f => f.1) = [1, 2, 3, 4, 5] := by
    decide
  have hbyte : streamer_main.1.map (fun f => f.2.2 0) =
      [160, 64, 224, 128, 32] := by decide
  refine ⟨rfl, rfl, by decide, hmap, ?_, by decide, hbyte, ?_⟩
  · rw [hmap]
    simp [List.chain'_cons]
  · rw [hbyte]
    simp [List.pairwise_cons]

/- Interleaved model for the missed-wakeup property.

The consumer executes the poll-then-wait path of the driver plus the
kernel's poll machinery, statement by statement:
- pc 0: `poll_wait(file, my_wait_queue, wait)` — registration on the wait
  queue, which in `my_poll` (lines 245-269) happens BEFORE the flag check;
- pc 1: `if (data_ready)` — the readiness check, recorded in `obs`;
- pc 2: act on the observation: if ready was observed, `my_read` claims the
  frame (re-checking `data_ready` as the source does); if not, the poll
  syscall goes to sleep — unless a wake-up was already delivered to this
  registered waiter, in which case the sleep is skipped and the poll loop
  re-checks (standard kernel wait-queue behaviour: a wake-up arriving after
  registration prevents the subsequent sleep);
- pc 3: finished, frame claimed.

The producer executes `simulate_camera_interrupt` (lines 126-155),
statement by statement:
- ppc 0: capture the frame and set `data_ready = true` (the source sets
  the flag only after the frame is generated);
- ppc 1: `wake_up_interruptible(my_wait_queue)` — delivered to the consumer
  only if it is registered: a sleeping waiter is made runnable and re-polls;
  a registered waiter that has not yet slept has its pending-wake flag set.

The wait-queue wake/sleep semantics (everything above that is not a line of
the driver) is the standard Linux contract of `poll_wait` /
`wake_up_interruptible` / `poll_schedule_timeout`; the driver-visible
orderings — registration before check, flag set before wake — are taken
from the driver source. -/

structure PollSys where
  data_ready : Bool
  frame_count : Nat
  registered : Bool
  wake_pending : Bool
  blocked : Bool
  cpc : Nat
  obs : Bool
  claimed : Option Nat
  ppc : Nat
deriving DecidableEq

/-- One consumer statement (no effect while sleeping). -/
def consumer_step (s : PollSys) : PollSys :=
  if s.blocked then s
  else if s.cpc = 0 then { s with registered := true, cpc := 1 }
  else if s.cpc = 1 then { s with obs := s.data_ready, cpc := 2 }
  else if s.cpc = 2 then
    if s.obs then
      if s.data_ready then
        { s with claimed := some s.frame_count, data_ready := false,
                 cpc := 3 }
      else { s with cpc := 1 }
    else if s.wake_pending then { s with wake_pending := false, cpc := 1 }
    else { s with blocked := true }
  else s

/-- One producer statement of the single publish. -/
def producer_step (s : PollSys) : PollSys :=
  if s.ppc = 0 then
    { s with frame_count := s.frame_count + 1, data_ready := true,
             ppc := 1 }
  else if s.ppc = 1 then
    if s.registered then
      if s.blocked then { s with blocked := false, cpc := 1, ppc := 2 }
      else { s with wake_pending := true, ppc := 2 }
    else { s with ppc := 2 }
  else s

/-- Scheduler: `true` runs a producer statement, `false` a consumer one. -/
def poll_step (s : PollSys) (who : Bool) : PollSys :=
  if who then producer_step s else consumer_step s

def run_poll (sched : List Bool) (s : PollSys) : PollSys :=
  sched.foldl poll_step s

/-- Initial state: channel empty, consumer about to enter `my_poll`,
producer about to fire once. -/
def pollSysInit : PollSys :=
  { data_ready := false, frame_count := 0, registered := false,
    wake_pending := false, blocked := false, cpc := 0, obs := false,
    claimed := none, ppc := 0 }

/-- A schedule in which the consumer registers and observes `ready = false`
(two consumer statements), and the two statements of the publish land
anywhere after that observation: `a` consumer statements before the flag
is set, `b` consumer statements between the flag set and the wake-up, then
the consumer runs on.  `a` and `b` range over all of `Nat`, so every
placement of the publish after the failed check — before the consumer
attempts to sleep, between sleep attempt and wake, or after the consumer
already sleeps — is covered. -/
def c1_sched (a b : Nat) : List Bool :=
  [false, false] ++ List.replicate a false ++ [true] ++
    List.replicate b false ++ [true] ++ [false, false, false]

lemma run_poll_append (l1 l2 : List Bool) (s : PollSys) :
    run_poll (l1 ++ l2) s = run_poll l2 (run_poll l1 s) := by
  simp [run_poll, List.foldl_append]

lemma run_poll_blocked_fix (n : Nat) (s : PollSys) (h : s.blocked = true) :
    run_poll (List.replicate n false) s = s := by
  induction n with
  | zero => rfl
  | succ n ih =>
    rw [List.replicate_succ]
    have hstep : poll_step s false = s := by
      simp [poll_step, consumer_step, h]
    simp only [run_poll, List.foldl_cons]
    have : poll_step s false = s := hstep
    rw [this]
    exact ih

/-- Claim C1: no missed wakeup.  `my_poll` registers the caller on the wait
queue before checking `data_ready`, and `simulate_camera_interrupt` sets
`data_ready` before calling `wake_up_interruptible` — consequently, for
every interleaving in which the publish lands strictly after the consumer's
poll observed `ready = false` (in particular every one in which it lands
before the consumer blocks), the consumer is not left sleeping: it ends not
blocked, its wait-and-claim terminates, and it returns the published frame
(sequence number 1). -/
theorem c1_no_missed_wakeup (a b : Nat) :
    (run_poll (c1_sched a b) pollSysInit).claimed = some 1 ∧
    (run_poll (c1_sched a b) pollSysInit).blocked = false ∧
    (run_poll (c1_sched a b) pollSysInit).cpc = 3 := by
  have key : run_poll (c1_sched a b) pollSysInit =
      { data_ready := false, frame_count := 1, registered := true,
        wake_pending := false, blocked := false, cpc := 3, obs := true,
        claimed := some 1, ppc := 2 } := by
    unfold c1_sched
    rw [run_poll_append, run_poll_append, run_poll_append, run_poll_append,
      run_poll_append]
    have h2 : run_poll [false, false] pollSysInit =
        { data_ready := false, frame_count := 0, registered := true,
          wake_pending := false, blocked := false, cpc := 2, obs := false,
          claimed := none, ppc := 0 } := by decide
    rw [h2]
    cases a with
    | zero =>
      rw [show List.replicate 0 false = ([] : List Bool) from rfl]
      cases b with
      | zero => decide
      | succ b =>
        rw [show (List.replicate (b + 1) false) =
          false :: List.replicate b false from List.replicate_succ ..]
        simp only [run_poll, List.foldl_cons, List.foldl_nil]
        rw [show ∀ z : PollSys, List.foldl poll_step z
            (List.replicate b false) = run_poll (List.replicate b false) z
          from fun z => rfl]
        rw [run_poll_blocked_fix b _ (by decide)]
        decide
    | succ a =>
      rw [show (List.replicate (a + 1) false) =
        false :: List.replicate a false from List.replicate_succ ..]
      simp only [run_poll, List.foldl_cons, List.foldl_nil]
      rw [show ∀ z : PollSys, List.foldl poll_step z
          (List.replicate a false) = run_poll (List.replicate a false) z
        from fun z => rfl]
      rw [run_poll_blocked_fix a _ (by decide)]
      rw [show ∀ z : PollSys, List.foldl poll_step z
          (List.replicate b false) = run_poll (List.replicate b false) z
        from fun z => rfl]
      rw [run_poll_blocked_fix b _ (by decide)]
      decide
  rw [key]
  exact ⟨rfl, rfl, rfl⟩

/- Interleaved byte-level model for frame tearing.

`generate_test_pattern` writes the frame buffer row by row (one iteration
of its outer `i` loop per scheduled statement), and `copy_to_user` in
`my_read` copies the buffer to the user buffer in pieces (modelled at the
same row granularity — the kernel primitive gives no atomicity for a
614400-byte copy against a concurrent writer).  The driver holds no lock,
and an overwriting publish does not clear `data_ready` while it rewrites
the buffer, so a reader's in-progress copy can interleave with the
producer's in-progress rewrite. -/

def ROW_BYTES : Nat := FRAME_WIDTH * BYTES_PER_PIXEL

structure TearSys where
  frame_count : Nat
  data_ready : Bool
  buf : Nat → Nat
  ubuf : Nat → Nat
  ret : Option (Except Errno Nat)

/-- The scheduled statements: `rcheck`/`rcopy i`/`rclear` are the ready
check, the copy of row `i`, and the flag clear of `my_read`; `pinc`,
`pwrite i`, `pready`, `pwake` are `frame_count++`, the write of row `i` by
`generate_test_pattern`, `data_ready = true`, and the wake call of
`simulate_camera_interrupt`. -/
inductive TearStep where
  | rcheck
  | rcopy (i : Nat)
  | rclear
  | pinc
  | pwrite (i : Nat)
  | pready
  | pwake

def tear_step (s : TearSys) (t : TearStep) : TearSys :=
  match t with
  | TearStep.rcheck =>
    if s.data_ready = false then
      { s with ret := some (Except.error Errno.EAGAIN) }
    else s
  | TearStep.rcopy i =>
    { s with ubuf := fun idx => if idx / ROW_BYTES = i then s.buf idx
                                else s.ubuf idx }
  | TearStep.rclear =>
    { s with data_ready := false, ret := some (Except.ok FRAME_SIZE) }
  | TearStep.pinc => { s with frame_count := s.frame_count + 1 }
  | TearStep.pwrite i =>
    { s with buf := fun idx => if idx / ROW_BYTES = i then
                                 pattern_byte s.frame_count idx
                               else s.buf idx }
  | TearStep.pready => { s with data_ready := true }
  | TearStep.pwake => s

def run_tear (sched : List TearStep) (s : TearSys) : TearSys :=
  sched.foldl tear_step s

/-- State after the first publish completed in full: frame 1 is in the
buffer, `data_ready` is set, a reader is about to call `my_read`. -/
def tearInit : TearSys :=
  { frame_count := 1, data_ready := true,
    buf := generate_test_pattern 1, ubuf := fun _ => 0, ret := none }

/-- The torn interleaving: the reader passes the ready check and copies row
0; the timer then fires and the entire second publish runs
(`frame_count++`, all 480 row writes, `data_ready = true`, wake); the
reader then copies rows 1..479 and clears the flag. -/
def tear_sched : List TearStep :=
  [TearStep.rcheck, TearStep.rcopy 0, TearStep.pinc] ++
    ((List.range FRAME_HEIGHT).map TearStep.pwrite) ++
    [TearStep.pready, TearStep.pwake] ++
    ((List.range (FRAME_HEIGHT - 1)).map (fun i => TearStep.rcopy (i + 1)))
    ++ [TearStep.rclear]

set_option maxRecDepth 40000 in
/-- Claim C4 counterexample: the driver has no lock and an overwriting
publish does not clear `data_ready`, so a claim that interleaves with the
second publish returns successfully (full `FRAME_SIZE` count) yet its
payload mixes the two publishes: byte 0 is frame 1's byte 0 (and differs
from frame 2's byte 0), while byte 1280 (row 1) is frame 2's byte 1280
(and differs from frame 1's byte 1280).  The payload is therefore neither
"the complete byte content of a single publish" nor free of mixing, at
this explicit interleaving. -/
theorem c4_no_partial_frame_counterexample :
    (run_tear tear_sched tearInit).ret = some (Except.ok FRAME_SIZE) ∧
    (run_tear tear_sched tearInit).ubuf 0 = pattern_byte 1 0 ∧
    (run_tear tear_sched tearInit).ubuf 1280 = pattern_byte 2 1280 ∧
    pattern_byte 1 0 ≠ pattern_byte 2 0 ∧
    pattern_byte 1 1280 ≠ pattern_byte 2 1280 := by
  refine ⟨?_, ?_, ?_, by decide, by decide⟩
  · rfl
  · decide
  · decide

/-- Claim C4, amended: a claim that does not overlap any publish returns
the complete bytes of a single publish (the driver does not guarantee this
for claims racing an overwriting publish — see the counterexample): a
`my_read` run after `simulate_camera_interrupt` has completed returns
success and a payload that is byte-for-byte the pattern of that single
publish. -/
theorem c4_no_partial_frame_sequential (s : ChanState) (u : Nat → Nat) :
    (my_read (simulate_camera_interrupt s) u FRAME_SIZE true).ret =
      Except.ok FRAME_SIZE ∧
    ∀ idx, idx < FRAME_SIZE →
      (my_read (simulate_camera_interrupt s) u FRAME_SIZE true).ubuf idx =
        pattern_byte (s.frame_count + 1) idx := by
  refine ⟨by simp [my_read, simulate_camera_interrupt], ?_⟩
  intro idx hidx
  simp only [my_read, simulate_camera_interrupt, generate_test_pattern]
  simp [hidx]

/-- Claim C4 witness (amended form): at the fresh channel, the claim after
the first publish delivers byte 0 of frame 1's pattern, namely 160. -/
theorem c4_no_partial_frame_sequential_witness :
    (my_read (simulate_camera_interrupt chanInit) ubuf0 FRAME_SIZE
        true).ubuf 0 = pattern_byte 1 0 ∧ pattern_byte 1 0 = 160 :=
  ⟨(c4_no_partial_frame_sequential chanInit ubuf0).2 0 (by decide),
   by decide⟩

/- Module teardown.  `interrupt_v2_exit` (lines 363-385) executes
`del_timer`, `kfree(frame_buffer)`, and the device/cdev/region teardown.
It contains no `wake_up` call, sets no closed flag, and `my_read` checks no
closed state, so nothing in the teardown path releases a waiter or makes
later claims report cancellation. -/

structure ModuleState where
  chan : ChanState
  timer_active : Bool
  buffer_allocated : Bool
  device_registered : Bool
  reader_blocked : Bool
  wake_count : Nat

/-- `interrupt_v2_exit`: stop the timer, free the frame buffer, tear down
the device.  The wait queue is untouched: `wake_count` (the number of
`wake_up_interruptible` calls issued so far) does not change, and neither
does any waiter's state. -/
def interrupt_v2_exit (s : ModuleState) : ModuleState :=
  { s with timer_active := false, buffer_allocated := false,
           device_registered := false }

/-- One timer period: if the timer is still armed, the callback runs
`simulate_camera_interrupt` (whose wake releases a blocked reader);
a deleted timer never fires again. -/
def timer_tick (s : ModuleState) : ModuleState :=
  if s.timer_active then
    { s with chan := simulate_camera_interrupt s.chan,
             reader_blocked := false, wake_count := s.wake_count + 1 }
  else s

/-- A loaded module with an empty channel and one reader blocked in an
infinite wait. -/
def moduleWithBlockedReader : ModuleState :=
  { chan := chanInit, timer_active := true, buffer_allocated := true,
    device_registered := true, reader_blocked := true, wake_count := 0 }

/-- Claim C8 counterexample: running the teardown while a reader is blocked
in an infinite wait leaves that reader blocked — the teardown issues no
wake-up (`wake_count` is unchanged) — and a claim invoked after the
teardown returns `-EAGAIN`, not a Cancelled signal; the timer is stopped,
so no later wake can ever arrive either.  This refutes both halves of the
claim at this concrete state. -/
theorem c8_shutdown_counterexample :
    (interrupt_v2_exit moduleWithBlockedReader).reader_blocked = true ∧
    (interrupt_v2_exit moduleWithBlockedReader).wake_count = 0 ∧
    timer_tick (interrupt_v2_exit moduleWithBlockedReader) =
      interrupt_v2_exit moduleWithBlockedReader ∧
    (my_read (interrupt_v2_exit moduleWithBlockedReader).chan ubuf0
        FRAME_SIZE true).ret = Except.error Errno.EAGAIN ∧
    Errno.EAGAIN ≠ Errno.ECANCELED := by
  refine ⟨rfl, rfl, ?_, ?_, by decide⟩
  · rfl
  · rfl

/-- Claim C8, amended: the teardown stops the producer timer, frees the
frame buffer and tears down the device, but performs no wake-up and leaves
no closed marker: a reader blocked in an infinite wait stays blocked after
the teardown and after every number of further timer periods (the stopped
timer never fires), and a claim invoked after the teardown returns
`-EAGAIN`, `-EFAULT` or stale frame bytes — never a Cancelled signal. -/
theorem c8_shutdown_no_cancellation (s : ModuleState) (n : Nat)
    (u : Nat → Nat) (count : Nat) (copy_ok : Bool) :
    (interrupt_v2_exit s).timer_active = false ∧
    (interrupt_v2_exit s).buffer_allocated = false ∧
    (interrupt_v2_exit s).reader_blocked = s.reader_blocked ∧
    (interrupt_v2_exit s).wake_count = s.wake_count ∧
    (timer_tick^[n] (interrupt_v2_exit s)).reader_blocked =
      s.reader_blocked ∧
    (timer_tick^[n] (interrupt_v2_exit s)).wake_count = s.wake_count ∧
    (my_read (interrupt_v2_exit s).chan u count copy_ok).ret ≠
      Except.error Errno.ECANCELED := by
  have hfix : timer_tick (interrupt_v2_exit s) = interrupt_v2_exit s := by
    simp [timer_tick, interrupt_v2_exit]
  have hiter : timer_tick^[n] (interrupt_v2_exit s) =
      interrupt_v2_exit s := by
    induction n with
    | zero => rfl
    | succ n ih => rw [Function.iterate_succ_apply, hfix, ih]
  refine ⟨rfl, rfl, rfl, rfl, by rw [hiter]; rfl, by rw [hiter]; rfl, ?_⟩
  by_cases h1 : (interrupt_v2_exit s).chan.data_ready = false
  · simp [my_read, h1]
  · by_cases h2 : copy_ok = false
    · simp [my_read, h1, h2]
    · simp [my_read, h1, h2]
